import Mathlib

/-!
Verification development for the `location-sync` worker (`src/index.ts`).

The embedding models the JSON values the handlers receive, the H3 helper
functions (`computeH3`, `buildNearbyParams`), the SQL timestamp
normalization (`TS_NORM`), the query construction of `handleGetLocations`,
and the three write handlers (`handlePostLocation`, `handleBatchImport`,
`handleBackfillH3`).  JavaScript numbers are modelled as `Option ℚ`
(`none` = NaN); the external `h3-js` capability and SQLite's `datetime`
are abstract function parameters.
-/

/-- A JSON value as seen by the handlers after `request.json()`.
`Option JSVal` is used for object fields, with `none` = property absent
(i.e. `undefined` in JavaScript). -/
inductive JSVal where
  | jnull
  | jbool (b : Bool)
  | jnum (q : ℚ)
  | jstr (s : String)
deriving DecidableEq, Repr

/-- JavaScript `v == null` (matches both `undefined` and `null`). -/
def isNullish : Option JSVal → Bool
  | none => true
  | some .jnull => true
  | _ => false

/-- JavaScript truthiness of an (optional) value; `undefined`, `null`,
`false`, `0` and `""` are falsy. -/
def truthy : Option JSVal → Bool
  | none => false
  | some .jnull => false
  | some (.jbool b) => b
  | some (.jnum q) => !(q == 0)
  | some (.jstr s) => !(s == "")

/-- One decimal digit. -/
def digitVal (c : Char) : ℕ := c.toNat - '0'.toNat

def isDigitCh (c : Char) : Bool := '0' ≤ c && c ≤ '9'

/-- Value of a digit run, accumulating left to right. -/
def digitsVal (cs : List Char) : ℕ :=
  cs.foldl (fun a c => a * 10 + digitVal c) 0

/-- JavaScript `parseInt(s)` (radix 10): skip leading whitespace, optional
sign, then the longest leading digit run; NaN (`none`) if that run is
empty.  (Radix prefixes are not modelled; no caller passes them.) -/
def jsParseInt (s : String) : Option ℤ :=
  let cs := s.data.dropWhile (fun c => c == ' ' || c == '\t' || c == '\n' || c == '\r')
  let (neg, rest) :=
    match cs with
    | '-' :: r => (true, r)
    | '+' :: r => (false, r)
    | r => (false, r)
  let ds := rest.takeWhile isDigitCh
  if ds.isEmpty then none
  else some (if neg then -(digitsVal ds : ℤ) else (digitsVal ds : ℤ))

/-- JavaScript `parseFloat(s)`: skip leading whitespace, optional sign,
digits, optional `.` and fraction digits; NaN (`none`) when no digit was
consumed.  (Exponent notation is not modelled; no claim involves it.) -/
def jsParseFloat (s : String) : Option ℚ :=
  let cs := s.data.dropWhile (fun c => c == ' ' || c == '\t' || c == '\n' || c == '\r')
  let (neg, rest) :=
    match cs with
    | '-' :: r => (true, r)
    | '+' :: r => (false, r)
    | r => (false, r)
  let intDs := rest.takeWhile isDigitCh
  let afterInt := rest.drop intDs.length
  let fracDs :=
    match afterInt with
    | '.' :: r => r.takeWhile isDigitCh
    | _ => []
  if intDs.isEmpty && fracDs.isEmpty then none
  else
    let mag : ℚ := (digitsVal intDs : ℚ) + (digitsVal fracDs : ℚ) / ((10 : ℚ) ^ fracDs.length)
    some (if neg then -mag else mag)

def isJsWs (c : Char) : Bool := c == ' ' || c == '\t' || c == '\n' || c == '\r'

/-- JavaScript `Number(string)` (`none` = NaN): unlike `parseFloat`,
the whole trimmed string must be a numeric literal — an empty or
whitespace-only string is 0, and any trailing non-whitespace makes the
result NaN.  (Hex and exponent literals are not modelled; no claim
involves them.) -/
def jsStrToNumber (s : String) : Option ℚ :=
  let cs := s.data.dropWhile isJsWs
  if cs.isEmpty then some 0
  else
    let (neg, rest) :=
      match cs with
      | '-' :: r => (true, r)
      | '+' :: r => (false, r)
      | r => (false, r)
    let intDs := rest.takeWhile isDigitCh
    let afterInt := rest.drop intDs.length
    let fracDs :=
      match afterInt with
      | '.' :: r => r.takeWhile isDigitCh
      | _ => []
    let afterNum :=
      match afterInt with
      | '.' :: r => r.drop (r.takeWhile isDigitCh).length
      | _ => afterInt
    if intDs.isEmpty && fracDs.isEmpty then none
    else if !(afterNum.dropWhile isJsWs).isEmpty then none
    else
      let mag : ℚ := (digitsVal intDs : ℚ) + (digitsVal fracDs : ℚ) / ((10 : ℚ) ^ fracDs.length)
      some (if neg then -mag else mag)

/-- JavaScript `Number(v)` coercion for a field value (`none` = NaN).
`Number(undefined)` is NaN; `Number(null)` is 0; strings go through the
whole-string numeric coercion `jsStrToNumber`. -/
def toNumber : Option JSVal → Option ℚ
  | none => none
  | some .jnull => some 0
  | some (.jbool b) => some (if b then 1 else 0)
  | some (.jnum q) => some q
  | some (.jstr s) => jsStrToNumber s

/-- `Math.max` on JavaScript numbers (NaN-propagating). -/
def jsMaxI (a : Option ℤ) (b : ℤ) : Option ℤ :=
  match a with
  | some x => some (max x b)
  | none => none

/-- `Math.min` on JavaScript numbers (NaN-propagating). -/
def jsMinI (a : Option ℤ) (b : ℤ) : Option ℤ :=
  match a with
  | some x => some (min x b)
  | none => none

def jsMaxQ (a : Option ℚ) (b : ℚ) : Option ℚ :=
  match a with
  | some x => some (max x b)
  | none => none

def jsMinQ (a : Option ℚ) (b : ℚ) : Option ℚ :=
  match a with
  | some x => some (min x b)
  | none => none

/-- `x >= b` on JavaScript numbers: false when `x` is NaN. -/
def jsGE (a : Option ℚ) (b : ℚ) : Bool :=
  match a with
  | some x => b ≤ x
  | none => false

/-- `Math.ceil(x / d)` for a nonzero constant `d` (NaN-propagating). -/
def jsCeilDiv (a : Option ℚ) (d : ℚ) : Option ℤ :=
  match a with
  | some x => some ⌈x / d⌉
  | none => none

/-- The external `h3-js` capability, consumed abstractly (the hex-grid
tiling itself is out of scope).  `gridDisk` takes an `Option ℤ` ring
count because a NaN `k` can reach it in JavaScript. -/
structure H3Lib where
  latLngToCell : ℚ → ℚ → ℕ → String
  gridDisk : String → Option ℤ → List String

/-- A fixed instance used only to evaluate the model on concrete inputs. -/
def h3Fix : H3Lib where
  latLngToCell := fun _ _ r => "cell" ++ toString r
  gridDisk := fun c _ => [c]

/-- `computeH3` from `src/index.ts`: both cells `null` when either
coordinate is nullish or coerces to NaN, otherwise both computed. -/
def computeH3 (g : H3Lib) (lat lon : Option JSVal) : Option String × Option String :=
  if isNullish lat || isNullish lon then (none, none)
  else
    match toNumber lat, toNumber lon with
    | some la, some lo => (some (g.latLngToCell la lo 7), some (g.latLngToCell la lo 9))
    | _, _ => (none, none)

structure NearbyParams where
  column : String
  cells : List String
deriving DecidableEq, Repr

/-- `buildNearbyParams` from `src/index.ts`.  `radiusKm` is a JavaScript
number (`none` = NaN, on which `>= 2` is false). -/
def buildNearbyParams (g : H3Lib) (lat lon : ℚ) (radiusKm : Option ℚ) : NearbyParams :=
  if jsGE radiusKm 2 then
    { column := "h3_res7"
      cells := g.gridDisk (g.latLngToCell lat lon 7) (jsMinI (jsCeilDiv radiusKm 1.406) 10) }
  else
    { column := "h3_res9"
      cells := g.gridDisk (g.latLngToCell lat lon 9) (jsMinI (jsCeilDiv radiusKm 0.201) 10) }

/-! ## Timestamp normalization (`TS_NORM`) -/

def isOffSign (c : Char) : Bool := c == '+' || c == '-'

/-- The suffix test of the SQLite pattern
`GLOB '*[+-][0-9][0-9][0-9][0-9]'`, examined on the reversed character
list: the last four characters are digits and the fifth-from-last is a
sign. -/
def globTail : List Char → Bool
  | d4 :: d3 :: d2 :: d1 :: sg :: _ =>
      isDigitCh d4 && isDigitCh d3 && isDigitCh d2 && isDigitCh d1 && isOffSign sg
  | _ => false

def tsGlobMatch (s : String) : Bool := globTail s.data.reverse

/-- The `TS_NORM` CASE expression: when the GLOB matches, rewrite to
`substr(t, 1, length(t) - 2) || ':' || substr(t, -2)`; otherwise pass the
string through unchanged. -/
def tsNorm (s : String) : String :=
  if tsGlobMatch s then
    String.mk (s.data.take (s.data.length - 2) ++ ':' :: s.data.drop (s.data.length - 2))
  else s

/-! ## `handleGetLocations`: query parameters and query construction -/

/-- The query parameters of a GET /locations request, as returned by
`url.searchParams.get` (`none` = parameter absent). -/
structure GetParams where
  days : Option String
  limit : Option String
  source : Option String
  after : Option String
  before : Option String
  near_lat : Option String
  near_lon : Option String
  radius : Option String
deriving DecidableEq, Repr

/-- `Math.min(Math.max(parseInt(get("days") ?? "7"), 1), 365)`. -/
def effDays (ps : GetParams) : Option ℤ :=
  jsMinI (jsMaxI (jsParseInt (ps.days.getD "7")) 1) 365

/-- `Math.min(Math.max(parseInt(get("limit") ?? "1000"), 1), 10000)`. -/
def effLimit (ps : GetParams) : Option ℤ :=
  jsMinI (jsMaxI (jsParseInt (ps.limit.getD "1000")) 1) 10000

/-- `Math.min(Math.max(parseFloat(radiusParam ?? "1"), 0.1), 50)`. -/
def effRadius (radiusParam : Option String) : Option ℚ :=
  jsMinQ (jsMaxQ (jsParseFloat (radiusParam.getD "1")) 0.1) 50

/-- The lower time bound on the built query: either the raw `after`
parameter bound against `datetime(TS_NORM) >= ?`, or the default
`datetime('now', '-{days} days')` window. -/
inductive TimeLower where
  | afterTs (v : String)
  | nowMinusDays (d : Option ℤ)
deriving DecidableEq, Repr

/-- The WHERE/ORDER BY structure of the query assembled by
`handleGetLocations` (one clause per `query +=` site). -/
structure LocQuery where
  timeLower : Option TimeLower
  timeUpper : Option String
  source : Option String
  spatial : Option NearbyParams
  limitV : Option ℤ
deriving DecidableEq, Repr

/-- `if (after) {...} else if (!spatialFilter) {...}`: `after` is truthy
only when present and nonempty; without it the `-days` window applies
only when no spatial filter was built. -/
def mkTimeLower (after : Option String) (hasSpatial : Bool) (days : Option ℤ) : Option TimeLower :=
  match after with
  | some a =>
      if a = "" then (if hasSpatial then none else some (.nowMinusDays days))
      else some (.afterTs a)
  | none => if hasSpatial then none else some (.nowMinusDays days)

/-- `if (before) { ... }` / `if (source) { ... }`: a clause is appended
only for a truthy (nonempty) parameter. -/
def mkTruthyClause (v : Option String) : Option String :=
  match v with
  | some a => if a = "" then none else some a
  | none => none

structure SpatialMeta where
  centerLat : ℚ
  centerLon : ℚ
  radius_km : Option ℚ
  resolution_used : ℕ
  cells_searched : ℕ
deriving DecidableEq, Repr

/-- The pure part of `handleGetLocations`: parameter parsing, spatial
filter construction and query assembly.  `Except.error` is the
`errorResponse("near_lat and near_lon must be valid numbers")` path. -/
def handleGetLocations (g : H3Lib) (ps : GetParams) : Except String (LocQuery × Option SpatialMeta) :=
  let days := effDays ps
  let limitv := effLimit ps
  match ps.near_lat, ps.near_lon with
  | some nlat, some nlon =>
      match jsParseFloat nlat, jsParseFloat nlon with
      | some lat, some lon =>
          let radiusKm := effRadius ps.radius
          let sf := buildNearbyParams g lat lon radiusKm
          Except.ok
            ({ timeLower := mkTimeLower ps.after true days
               timeUpper := mkTruthyClause ps.before
               source := mkTruthyClause ps.source
               spatial := some sf
               limitV := limitv },
             some { centerLat := lat, centerLon := lon, radius_km := radiusKm
                    resolution_used := if sf.column = "h3_res7" then 7 else 9
                    cells_searched := sf.cells.length })
      | _, _ => Except.error "near_lat and near_lon must be valid numbers"
  | _, _ =>
      Except.ok
        ({ timeLower := mkTimeLower ps.after false days
           timeUpper := mkTruthyClause ps.before
           source := mkTruthyClause ps.source
           spatial := none
           limitV := limitv },
         none)

/-! ## Read-side semantics of the time clauses -/

/-- The SQL functions consumed by the read query: `datetime(s)` (which
may return NULL on an unparseable string) and
`datetime('now', '-{days} days')`. -/
structure SqlEnv where
  datetime : String → Option String
  nowMinus : Option ℤ → Option String

/-- `datetime(TS_NORM)` applied to a stored timestamp — the key used by
both the range comparisons and the ORDER BY. -/
def tsKey (env : SqlEnv) (ts : String) : Option String := env.datetime (tsNorm ts)

/-- A stored row as seen by the time clauses. -/
structure LocRow where
  timestamp : String
deriving DecidableEq, Repr

/-- SQL `a >= b` with NULL on the left collapsing to not-selected. -/
def sqlGE (a : Option String) (b : String) : Bool :=
  match a with
  | some x => b ≤ x
  | none => false

def sqlLE (a : Option String) (b : String) : Bool :=
  match a with
  | some x => x ≤ b
  | none => false

/-- Evaluation of the two time clauses of the built query on one row:
`AND datetime(TS_NORM) >= ?` / `AND datetime(TS_NORM) <= ?`. -/
def rowTimePass (env : SqlEnv) (q : LocQuery) (r : LocRow) : Bool :=
  (match q.timeLower with
   | none => true
   | some (.afterTs a) => sqlGE (tsKey env r.timestamp) a
   | some (.nowMinusDays d) =>
       match env.nowMinus d, tsKey env r.timestamp with
       | some bound, some k => bound ≤ k
       | _, _ => false)
  &&
  (match q.timeUpper with
   | none => true
   | some b => sqlLE (tsKey env r.timestamp) b)

/-- The `ORDER BY datetime(TS_NORM) DESC` sort key of a row. -/
def orderKey (env : SqlEnv) (r : LocRow) : Option String := tsKey env r.timestamp

/-! ## `handlePostLocation` -/

/-- The body fields `handlePostLocation` reads (`none` = absent). -/
structure PostBody where
  tag : Option JSVal
  lat : Option JSVal
  lon : Option JSVal
  tst : Option JSVal
  acc : Option JSVal
  alt : Option JSVal
  vel : Option JSVal
  desc : Option JSVal
  event : Option JSVal
  rad : Option JSVal
  timestamp : Option JSVal
  accuracy : Option JSVal
  source : Option JSVal
  place_id : Option JSVal
  semantic_type : Option JSVal
  activity_type : Option JSVal
  altitude : Option JSVal
  speed : Option JSVal
deriving DecidableEq, Repr

/-- The ambient effects the handler consumes: the hex-grid capability,
`new Date().toISOString()` (receipt time) and
`new Date(tst * 1000).toISOString()` (epoch conversion; its argument may
be NaN when `tst` is a truthy non-number). -/
structure PostEnv where
  g : H3Lib
  nowIso : String
  epochIso : Option ℚ → String

def postEnvFix : PostEnv where
  g := h3Fix
  nowIso := "2024-01-01T00:00:00.000Z"
  epochIso := fun _ => "1970-01-01T00:00:00.000Z"

/-- One row bound into an `INSERT INTO locations` statement.  Columns the
statement does not mention are `none`, as is a bound SQL NULL; a bound
`undefined` (possible only for `lat`/`lon` in the `location` branch) is
also `none`. -/
structure LocationInsert where
  timestampV : Option JSVal
  latV : Option JSVal
  lonV : Option JSVal
  accuracyV : Option JSVal
  sourceV : Option JSVal
  place_idV : Option JSVal
  semantic_typeV : Option JSVal
  activity_typeV : Option JSVal
  altitudeV : Option JSVal
  speedV : Option JSVal
  h3_res7 : Option String
  h3_res9 : Option String
deriving DecidableEq, Repr

/-- `v ?? null`: nullish collapses to SQL NULL, anything else is bound
as-is. -/
def bindOpt (v : Option JSVal) : Option JSVal :=
  if isNullish v then none else v

/-- `body.tst ? new Date(tst * 1000).toISOString() : new Date().toISOString()`. -/
def postTimestamp (env : PostEnv) (tst : Option JSVal) : String :=
  if truthy tst then env.epochIso ((toNumber tst).map (· * 1000)) else env.nowIso

inductive PostResp where
  | emptyList
  | okCreated
  | invalidPayload
deriving DecidableEq, Repr

/-- Outcome of one `handlePostLocation` call: the response and the list
of insert statements the handler issued against the store. -/
structure PostOut where
  response : PostResp
  writes : List LocationInsert
deriving DecidableEq, Repr

/-- `handlePostLocation` from `src/index.ts`: sequential dispatch on
`body._type` (strict string equality, then truthiness), falling through
to the generic insert and finally to the invalid-payload rejection.
`writes` is the list of INSERT statements the branch issues, and
`response` is the response the branch returns provided its awaited
statements succeed; the call-level outcome, in which a failing awaited
statement propagates as an uncaught exception (the source has no
try/catch around these awaits), is `postOutcome` below. -/
def handlePostLocation (env : PostEnv) (b : PostBody) : PostOut :=
  if b.tag = some (.jstr "location") then
    let h3 := computeH3 env.g b.lat b.lon
    { response := .emptyList
      writes := [{ timestampV := some (.jstr (postTimestamp env b.tst))
                   latV := b.lat, lonV := b.lon
                   accuracyV := bindOpt b.acc
                   altitudeV := bindOpt b.alt
                   speedV := bindOpt b.vel
                   sourceV := some (.jstr "owntracks")
                   place_idV := none, semantic_typeV := none, activity_typeV := none
                   h3_res7 := h3.1, h3_res9 := h3.2 }] }
  else if b.tag = some (.jstr "waypoint") ∧ b.lat.isSome ∧ b.lon.isSome then
    let h3 := computeH3 env.g b.lat b.lon
    { response := .emptyList
      writes := [{ timestampV := some (.jstr (postTimestamp env b.tst))
                   latV := b.lat, lonV := b.lon
                   accuracyV := bindOpt b.rad
                   sourceV := some (.jstr "owntracks:waypoint")
                   semantic_typeV := bindOpt b.desc
                   place_idV := none, activity_typeV := none, altitudeV := none, speedV := none
                   h3_res7 := h3.1, h3_res9 := h3.2 }] }
  else if b.tag = some (.jstr "transition") ∧ b.lat.isSome ∧ b.lon.isSome then
    let h3 := computeH3 env.g b.lat b.lon
    { response := .emptyList
      writes := [{ timestampV := some (.jstr (postTimestamp env b.tst))
                   latV := b.lat, lonV := b.lon
                   accuracyV := bindOpt b.acc
                   sourceV := some (.jstr "owntracks:transition")
                   semantic_typeV := bindOpt b.desc
                   activity_typeV := bindOpt b.event
                   place_idV := none, altitudeV := none, speedV := none
                   h3_res7 := h3.1, h3_res9 := h3.2 }] }
  else if truthy b.tag then
    { response := .emptyList, writes := [] }
  else if b.lat.isSome ∧ b.lon.isSome then
    let h3 := computeH3 env.g b.lat b.lon
    { response := .okCreated
      writes := [{ timestampV := some (if isNullish b.timestamp then .jstr env.nowIso
                                       else b.timestamp.getD .jnull)
                   latV := b.lat, lonV := b.lon
                   accuracyV := bindOpt b.accuracy
                   sourceV := some (if isNullish b.source then .jstr "manual"
                                    else b.source.getD .jnull)
                   place_idV := bindOpt b.place_id
                   semantic_typeV := bindOpt b.semantic_type
                   activity_typeV := bindOpt b.activity_type
                   altitudeV := bindOpt b.altitude
                   speedV := bindOpt b.speed
                   h3_res7 := h3.1, h3_res9 := h3.2 }] }
  else
    { response := .invalidPayload, writes := [] }

/-- The observable outcome of one POST /locations call: either the
handler's response, or an uncaught exception from a rejected awaited
store statement. -/
inductive PostOutcome where
  | ok (resp : PostResp)
  | thrown
deriving DecidableEq, Repr

/-- The call-level semantics of `handlePostLocation`: every branch
awaits its INSERT before reaching its `return`, and the source wraps
none of these awaits in try/catch, so the branch's response
materializes only if the store accepts every issued statement
(`insertOk` is the store's verdict); otherwise the rejection propagates
uncaught out of the handler. -/
def postOutcome (env : PostEnv) (insertOk : LocationInsert → Bool) (b : PostBody) : PostOutcome :=
  let out := handlePostLocation env b
  if out.writes.all insertOk then .ok out.response else .thrown

/-- A store verdict consistent with the schema of
`migrations/0001_create_locations.sql`: `lat` and `lon` are NOT NULL,
so a statement binding a missing coordinate is rejected. -/
def d1InsertOk (rec : LocationInsert) : Bool := rec.latV.isSome && rec.lonV.isSome

/-- A `PostBody` with every field absent. -/
def emptyBody : PostBody where
  tag := none
  lat := none
  lon := none
  tst := none
  acc := none
  alt := none
  vel := none
  desc := none
  event := none
  rad := none
  timestamp := none
  accuracy := none
  source := none
  place_id := none
  semantic_type := none
  activity_type := none
  altitude := none
  speed := none

/-! ## `handleBatchImport` -/

/-- One element of the `locations` array of a batch request. -/
structure RawLoc where
  timestamp : Option JSVal
  lat : Option JSVal
  lon : Option JSVal
  accuracy : Option JSVal
  source : Option JSVal
  place_id : Option JSVal
  semantic_type : Option JSVal
  activity_type : Option JSVal
  altitude : Option JSVal
  speed : Option JSVal
deriving DecidableEq, Repr

def emptyRawLoc : RawLoc where
  timestamp := none
  lat := none
  lon := none
  accuracy := none
  source := none
  place_id := none
  semantic_type := none
  activity_type := none
  altitude := none
  speed := none

/-- Fuel-indexed splitting into pages of 100 (`for i += 100` +
`slice(i, i + 100)`); the fuel only forces termination and is never
exhausted when it is at least the list length. -/
def chunksGo {α : Type} : ℕ → List α → List (List α)
  | _, [] => []
  | 0, _ :: _ => []
  | fuel + 1, x :: xs => ((x :: xs).take 100) :: chunksGo fuel ((x :: xs).drop 100)

/-- The page decomposition used by both `handleBatchImport` and
`handleBackfillH3` (`batchSize = 100`). -/
def chunks100 {α : Type} (l : List α) : List (List α) := chunksGo l.length l

/-- The statement built for one batch record: full column list, every
field defaulted to NULL via `?? null`. -/
def mkBatchStmt (g : H3Lib) (loc : RawLoc) : LocationInsert :=
  let h3 := computeH3 g loc.lat loc.lon
  { timestampV := bindOpt loc.timestamp
    latV := bindOpt loc.lat
    lonV := bindOpt loc.lon
    accuracyV := bindOpt loc.accuracy
    sourceV := bindOpt loc.source
    place_idV := bindOpt loc.place_id
    semantic_typeV := bindOpt loc.semantic_type
    activity_typeV := bindOpt loc.activity_type
    altitudeV := bindOpt loc.altitude
    speedV := bindOpt loc.speed
    h3_res7 := h3.1, h3_res9 := h3.2 }

/-- The pages of statements `handleBatchImport` submits via `DB.batch`. -/
def batchPages (g : H3Lib) (locs : List RawLoc) : List (List LocationInsert) :=
  (chunks100 locs).map (fun c => c.map (mkBatchStmt g))

structure BatchResp where
  imported : ℕ
  errors : ℕ
  total : ℕ
deriving DecidableEq, Repr

/-- `handleBatchImport` from `src/index.ts`.  `writeOk` is the store's
verdict on one page's atomic `DB.batch` call; a failing page adds its
whole size to `errors` and processing continues.  `none` models a body
whose `locations` is missing or not an array. -/
def handleBatchImport (g : H3Lib) (writeOk : List LocationInsert → Bool)
    (body : Option (List RawLoc)) : Except String BatchResp :=
  match body with
  | none => Except.error "Expected \x7b locations: [...] \x7d"
  | some locs =>
      let acc := (chunks100 locs).foldl
        (fun (acc : ℕ × ℕ) c =>
          if writeOk (c.map (mkBatchStmt g)) then (acc.1 + c.length, acc.2)
          else (acc.1, acc.2 + c.length))
        (0, 0)
      Except.ok { imported := acc.1, errors := acc.2, total := locs.length }

/-! ## `handleBackfillH3` -/

/-- A stored row as the backfill sees it (the columns it reads and
writes; other columns are untouched by the sweep). -/
structure DbRow where
  id : ℕ
  lat : Option ℚ
  lon : Option ℚ
  h3_res7 : Option String
  h3_res9 : Option String
deriving DecidableEq, Repr

/-- `WHERE h3_res7 IS NULL AND lat IS NOT NULL AND lon IS NOT NULL`. -/
def isTarget (r : DbRow) : Bool := r.h3_res7.isNone && r.lat.isSome && r.lon.isSome

/-- The selection of `handleBackfillH3`: matching rows, `LIMIT 1000`. -/
def backfillSelect (db : List DbRow) : List DbRow :=
  (db.filter isTarget).take 1000

/-- Number of unindexed rows with coordinates (the `remaining` recount). -/
def countTargets (db : List DbRow) : ℕ := db.countP (fun r => isTarget r)

/-- A D1 column value for a coordinate read back from the store (SQL NULL
becomes JavaScript `null`). -/
def dbNum : Option ℚ → Option JSVal
  | some q => some (.jnum q)
  | none => some .jnull

/-- `UPDATE locations SET h3_res7 = ?, h3_res9 = ? WHERE id = ?`. -/
structure UpdStmt where
  id : ℕ
  c7 : Option String
  c9 : Option String
deriving DecidableEq, Repr

/-- The update statement built for one selected row. -/
def mkUpdStmt (g : H3Lib) (r : DbRow) : UpdStmt :=
  let h3 := computeH3 g (dbNum r.lat) (dbNum r.lon)
  { id := r.id, c7 := h3.1, c9 := h3.2 }

def updRow (s : UpdStmt) (r : DbRow) : DbRow :=
  if r.id = s.id then { r with h3_res7 := s.c7, h3_res9 := s.c9 } else r

/-- Executing one UPDATE against the store. -/
def applyStmt (db : List DbRow) (s : UpdStmt) : List DbRow := db.map (updRow s)

/-- Executing a list of UPDATEs in order. -/
def applyStmts (db : List DbRow) (ss : List UpdStmt) : List DbRow := ss.foldl applyStmt db

structure BackfillResp where
  status : String
  updated : ℕ
  remaining : ℕ
  total_records : Option ℕ
deriving DecidableEq, Repr

/-- `handleBackfillH3` from `src/index.ts`: select up to 1000 unindexed
rows with coordinates; if none, report `complete`; otherwise update them
in pages of 100, recount, and report `in_progress` exactly when the
recount is positive.  Returns the response and the store state after the
call (batch UPDATEs are unguarded in the source, so the model assumes
they succeed). -/
def handleBackfillH3 (g : H3Lib) (db : List DbRow) : BackfillResp × List DbRow :=
  let sel := backfillSelect db
  if sel.length = 0 then
    ({ status := "complete", updated := 0, remaining := 0, total_records := some db.length }, db)
  else
    let pages := chunks100 sel
    let db' := pages.foldl (fun d c => applyStmts d (c.map (mkUpdStmt g))) db
    let updated := pages.foldl (fun u c => u + c.length) 0
    let remaining := countTargets db'
    ({ status := if remaining > 0 then "in_progress" else "complete"
       updated := updated, remaining := remaining, total_records := none }, db')

/-- `k` successive backfill invocations, threading the store state. -/
def backfillIter (g : H3Lib) : ℕ → List DbRow → List DbRow
  | 0, db => db
  | k + 1, db => backfillIter g k (handleBackfillH3 g db).2

/-- The per-row effect of a list of UPDATE statements (each `applyStmt`
is a pointwise map, so their composition acts row by row). -/
def applyRowStmts (r : DbRow) (ss : List UpdStmt) : DbRow :=
  ss.foldl (fun r s => updRow s r) r

/-- A fixed SQL environment used only to evaluate the model on concrete
inputs. -/
def sqlEnvFix : SqlEnv where
  datetime := fun s => some s
  nowMinus := fun _ => some "2024-01-01 00:00:00"

/-- A query with no clauses, used only for concrete evaluation. -/
def emptyQuery : LocQuery where
  timeLower := none
  timeUpper := none
  source := none
  spatial := none
  limitV := none

/-- A GET request whose `days` parameter is present but not a number. -/
def psBadDays : GetParams where
  days := some "x"
  limit := none
  source := none
  after := none
  before := none
  near_lat := none
  near_lon := none
  radius := none

/-- A GET request with every parameter absent. -/
def psNoParams : GetParams where
  days := none
  limit := none
  source := none
  after := none
  before := none
  near_lat := none
  near_lon := none
  radius := none

/-- A well-formed tracker ping, used only for concrete evaluation. -/
def pingBody : PostBody :=
  { emptyBody with tag := some (.jstr "location"), lat := some (.jnum 35),
                   lon := some (.jnum 139), tst := some (.jnum 1700000000) }

/-- A two-row store with both rows unindexed, used only for concrete
evaluation of the backfill. -/
def wdb : List DbRow :=
  [{ id := 1, lat := some 1, lon := some 2, h3_res7 := none, h3_res9 := none },
   { id := 2, lat := some 3, lon := some 4, h3_res7 := none, h3_res9 := none }]

/-! ## Page-splitting lemmas -/

theorem chunksGo_nil {α : Type} (fuel : ℕ) : chunksGo fuel ([] : List α) = [] := by
  cases fuel <;> rfl

theorem chunksGo_join {α : Type} :
    ∀ (fuel : ℕ) (l : List α), l.length ≤ fuel → (chunksGo fuel l).flatten = l := by
  intro fuel
  induction fuel with
  | zero =>
    intro l h
    have hl : l = [] := List.length_eq_zero.mp (Nat.le_zero.mp h)
    subst hl; rfl
  | succ n ih =>
    intro l h
    match l with
    | [] => rfl
    | x :: xs =>
      show ((x :: xs).take 100 :: chunksGo n ((x :: xs).drop 100)).flatten = x :: xs
      have hlen : ((x :: xs).drop 100).length ≤ n := by
        rw [List.length_drop]
        simp only [List.length_cons] at h ⊢
        omega
      rw [List.flatten_cons, ih _ hlen, List.take_append_drop]

theorem chunks100_join {α : Type} (l : List α) : (chunks100 l).flatten = l :=
  chunksGo_join l.length l le_rfl

theorem chunksGo_mem_length {α : Type} :
    ∀ (fuel : ℕ) (l : List α), ∀ c ∈ chunksGo fuel l, 0 < c.length ∧ c.length ≤ 100 := by
  intro fuel
  induction fuel with
  | zero =>
    intro l c hc
    cases l with
    | nil => simp [chunksGo] at hc
    | cons x xs => simp [chunksGo] at hc
  | succ n ih =>
    intro l c hc
    cases l with
    | nil => simp [chunksGo] at hc
    | cons x xs =>
      simp only [chunksGo, List.mem_cons] at hc
      rcases hc with rfl | hc
      · constructor
        · simp [List.length_take]
        · simp [List.length_take]
      · exact ih _ c hc

theorem chunksGo_dropLast_length {α : Type} :
    ∀ (fuel : ℕ) (l : List α), ∀ c ∈ (chunksGo fuel l).dropLast, c.length = 100 := by
  intro fuel
  induction fuel with
  | zero =>
    intro l c hc
    cases l with
    | nil => simp [chunksGo] at hc
    | cons x xs => simp [chunksGo] at hc
  | succ n ih =>
    intro l c hc
    cases l with
    | nil => simp [chunksGo] at hc
    | cons x xs =>
      simp only [chunksGo] at hc
      rcases hd : chunksGo n ((x :: xs).drop 100) with _ | ⟨r, rs⟩
      · rw [hd] at hc
        simp at hc
      · rw [hd] at hc
        rw [List.dropLast_cons₂] at hc
        rcases List.mem_cons.mp hc with rfl | hc'
        · -- the head page is full: the tail of the split is nonempty,
          -- so the list extends past index 100
          have hne : (x :: xs).drop 100 ≠ [] := by
            intro hnil
            rw [hnil, chunksGo_nil] at hd
            exact List.noConfusion hd
          have : 100 < (x :: xs).length := by
            by_contra hle
            exact hne (List.drop_eq_nil_of_le (Nat.le_of_not_lt hle))
          rw [List.length_take]
          simp only [List.length_cons] at this ⊢
          omega
        · have := ih ((x :: xs).drop 100) c
          rw [hd] at this
          exact this hc'

theorem chunks100_mem_length {α : Type} (l : List α) :
    ∀ c ∈ chunks100 l, 0 < c.length ∧ c.length ≤ 100 :=
  chunksGo_mem_length l.length l

theorem chunks100_dropLast_length {α : Type} (l : List α) :
    ∀ c ∈ (chunks100 l).dropLast, c.length = 100 :=
  chunksGo_dropLast_length l.length l

/-- Splitting the accumulating fold of `handleBatchImport` into the
per-verdict page-size sums. -/
theorem foldl_pages_split {α : Type} (q : List α → Bool) :
    ∀ (L : List (List α)) (a b : ℕ),
      (L.foldl (fun acc c => if q c then (acc.1 + c.length, acc.2) else (acc.1, acc.2 + c.length))
        (a, b)) =
      (a + ((L.filter q).map List.length).sum,
       b + ((L.filter (fun c => !q c)).map List.length).sum) := by
  intro L
  induction L with
  | nil => intro a b; simp
  | cons c cs ih =>
    intro a b
    by_cases hq : q c
    · simp only [List.foldl_cons, hq, if_true, List.filter_cons, Bool.not_true, ih]
      simp [hq, Nat.add_assoc]
    · simp only [List.foldl_cons, hq, if_false, List.filter_cons, Bool.not_false, ih,
        Bool.false_eq_true]
      simp [hq, Nat.add_assoc]

/-- The per-verdict page-size sums add up to the total length. -/
theorem filter_length_sum_split {α : Type} (q : List α → Bool) (L : List (List α)) :
    ((L.filter q).map List.length).sum + ((L.filter (fun c => !q c)).map List.length).sum
      = (L.map List.length).sum := by
  induction L with
  | nil => simp
  | cons c cs ih =>
    by_cases hq : q c <;>
      simp only [List.filter_cons, hq, if_true, if_false, Bool.not_true, Bool.not_false,
        List.map_cons, List.sum_cons, Bool.false_eq_true, ite_true, ite_false] <;>
      omega

/-! ## Row-update lemmas for the backfill -/

theorem applyStmts_eq_map (db : List DbRow) (ss : List UpdStmt) :
    applyStmts db ss = db.map (fun r => applyRowStmts r ss) := by
  induction ss generalizing db with
  | nil => simp [applyStmts, applyRowStmts]
  | cons s t ih =>
    show applyStmts (applyStmt db s) t = _
    rw [ih]
    simp only [applyStmt, List.map_map]
    rfl

theorem applyRowStmts_id (r : DbRow) (ss : List UpdStmt) :
    (applyRowStmts r ss).id = r.id := by
  induction ss generalizing r with
  | nil => rfl
  | cons s t ih =>
    show (applyRowStmts (updRow s r) t).id = r.id
    rw [ih]
    unfold updRow
    split <;> rfl

theorem applyRowStmts_not_mem (r : DbRow) (ss : List UpdStmt)
    (h : r.id ∉ ss.map UpdStmt.id) : applyRowStmts r ss = r := by
  induction ss with
  | nil => rfl
  | cons s t ih =>
    simp only [List.map_cons, List.mem_cons, not_or] at h
    show applyRowStmts (updRow s r) t = r
    rw [show updRow s r = r from by unfold updRow; rw [if_neg h.1]]
    exact ih h.2

theorem applyRowStmts_keeps_some (r : DbRow) (ss : List UpdStmt)
    (hall : ∀ s ∈ ss, s.c7.isSome) (h : r.h3_res7.isSome) :
    (applyRowStmts r ss).h3_res7.isSome := by
  induction ss generalizing r with
  | nil => exact h
  | cons s t ih =>
    show (applyRowStmts (updRow s r) t).h3_res7.isSome
    apply ih _ (fun u hu => hall u (List.mem_cons_of_mem s hu))
    unfold updRow
    split
    · exact hall s (List.mem_cons_self s t)
    · exact h

theorem applyRowStmts_mem_some (r : DbRow) (ss : List UpdStmt)
    (hall : ∀ s ∈ ss, s.c7.isSome) (h : r.id ∈ ss.map UpdStmt.id) :
    (applyRowStmts r ss).h3_res7.isSome := by
  induction ss generalizing r with
  | nil => simp at h
  | cons s t ih =>
    simp only [List.map_cons, List.mem_cons] at h
    show (applyRowStmts (updRow s r) t).h3_res7.isSome
    by_cases hid : r.id = s.id
    · apply applyRowStmts_keeps_some _ _ (fun u hu => hall u (List.mem_cons_of_mem s hu))
      unfold updRow
      rw [if_pos hid]
      exact hall s (List.mem_cons_self s t)
    · rcases h with h | h
      · exact absurd h hid
      · rw [show updRow s r = r from by unfold updRow; rw [if_neg hid]]
        exact ih r (fun u hu => hall u (List.mem_cons_of_mem s hu)) h

theorem applyStmts_map_id (db : List DbRow) (ss : List UpdStmt) :
    (applyStmts db ss).map DbRow.id = db.map DbRow.id := by
  rw [applyStmts_eq_map, List.map_map]
  exact List.map_congr_left (fun r _ => applyRowStmts_id r ss)

theorem isTarget_applyRowStmts (ss : List UpdStmt) (hall : ∀ s ∈ ss, s.c7.isSome)
    (r : DbRow) :
    isTarget (applyRowStmts r ss) = (isTarget r && !(decide (r.id ∈ ss.map UpdStmt.id))) := by
  by_cases hmem : r.id ∈ ss.map UpdStmt.id
  · have h7 := applyRowStmts_mem_some r ss hall hmem
    cases ho : (applyRowStmts r ss).h3_res7 with
    | none => rw [ho] at h7; simp at h7
    | some c => simp [isTarget, ho, hmem]
  · rw [applyRowStmts_not_mem r ss hmem]
    simp [hmem]

theorem countTargets_applyStmts (g : H3Lib) (db : List DbRow)
    (hnd : (db.map DbRow.id).Nodup) :
    countTargets (applyStmts db ((backfillSelect db).map (mkUpdStmt g)))
      = countTargets db - 1000 := by
  have hselT : backfillSelect db = (db.filter isTarget).take 1000 := rfl
  have hall : ∀ s ∈ (backfillSelect db).map (mkUpdStmt g), s.c7.isSome := by
    intro s hs
    obtain ⟨r, hr, rfl⟩ := List.mem_map.mp hs
    have hrT : r ∈ db.filter isTarget := by
      rw [hselT] at hr
      exact List.mem_of_mem_take hr
    have htar : isTarget r = true := List.of_mem_filter hrT
    simp only [isTarget, Bool.and_eq_true] at htar
    obtain ⟨⟨-, hlat⟩, hlon⟩ := htar
    obtain ⟨a, ha⟩ := Option.isSome_iff_exists.mp hlat
    obtain ⟨b, hb⟩ := Option.isSome_iff_exists.mp hlon
    simp [mkUpdStmt, computeH3, dbNum, ha, hb, isNullish, toNumber]
  have hids : ((backfillSelect db).map (mkUpdStmt g)).map UpdStmt.id
      = (backfillSelect db).map DbRow.id := by
    rw [List.map_map]; rfl
  unfold countTargets
  rw [applyStmts_eq_map, List.countP_map]
  have hpt : ∀ r ∈ db,
      ((fun r => isTarget r) ∘ (fun r => applyRowStmts r ((backfillSelect db).map (mkUpdStmt g)))) r
        = (isTarget r && !(decide (r.id ∈ (backfillSelect db).map DbRow.id))) := by
    intro r _
    rw [← hids]
    exact isTarget_applyRowStmts _ hall r
  rw [List.countP_congr (fun r hr => by rw [hpt r hr])]
  have hfil : db.countP (fun r => isTarget r && !(decide (r.id ∈ (backfillSelect db).map DbRow.id)))
      = (db.filter isTarget).countP (fun r => !(decide (r.id ∈ (backfillSelect db).map DbRow.id))) := by
    rw [List.countP_filter]
    apply List.countP_congr
    intro r _
    rw [Bool.and_comm]
  rw [hfil]
  have hT := List.take_append_drop 1000 (db.filter isTarget)
  have hTnodup : ((db.filter isTarget).map DbRow.id).Nodup :=
    List.Nodup.sublist (List.Sublist.map DbRow.id (List.filter_sublist db)) hnd
  have hmapsplit : (db.filter isTarget).map DbRow.id
      = ((db.filter isTarget).take 1000).map DbRow.id
        ++ ((db.filter isTarget).drop 1000).map DbRow.id := by
    rw [← List.map_append, hT]
  rw [hmapsplit, List.nodup_append] at hTnodup
  obtain ⟨-, -, hdisj⟩ := hTnodup
  conv_lhs => rw [← hT]
  rw [List.countP_append]
  have hzero : ((db.filter isTarget).take 1000).countP
      (fun r => !(decide (r.id ∈ (backfillSelect db).map DbRow.id))) = 0 := by
    apply List.countP_eq_zero.mpr
    intro r hr
    have : r.id ∈ (backfillSelect db).map DbRow.id := by
      rw [hselT]
      exact List.mem_map_of_mem DbRow.id hr
    simp [this]
  have hfull : ((db.filter isTarget).drop 1000).countP
      (fun r => !(decide (r.id ∈ (backfillSelect db).map DbRow.id)))
      = ((db.filter isTarget).drop 1000).length := by
    apply List.countP_eq_length.mpr
    intro r hr
    have hnotin : r.id ∉ (backfillSelect db).map DbRow.id := by
      rw [hselT]
      intro hin
      exact hdisj hin (List.mem_map_of_mem DbRow.id hr)
    simp [hnotin]
  rw [hzero, hfull, List.length_drop]
  have hlen : List.countP (fun r => isTarget r) db = (db.filter isTarget).length := by
    rw [List.countP_eq_length_filter]
  omega

theorem foldl_applyStmts (g : H3Lib) (pages : List (List DbRow)) (db : List DbRow) :
    pages.foldl (fun d c => applyStmts d (c.map (mkUpdStmt g))) db
      = applyStmts db (pages.flatten.map (mkUpdStmt g)) := by
  induction pages generalizing db with
  | nil => simp [applyStmts]
  | cons c cs ih =>
    simp only [List.foldl_cons, List.flatten_cons, List.map_append]
    rw [ih]
    unfold applyStmts
    rw [List.foldl_append]

theorem foldl_add_length {α : Type} : ∀ (L : List (List α)) (a : ℕ),
    L.foldl (fun u c => u + c.length) a = a + (L.map List.length).sum := by
  intro L
  induction L with
  | nil => intro a; simp
  | cons c cs ih =>
    intro a
    simp only [List.foldl_cons, List.map_cons, List.sum_cons, ih]
    omega

theorem backfillSelect_length (db : List DbRow) :
    (backfillSelect db).length = min 1000 (countTargets db) := by
  unfold backfillSelect countTargets
  rw [List.length_take, List.countP_eq_length_filter]

theorem handleBackfillH3_of_empty (g : H3Lib) (db : List DbRow) (h : countTargets db = 0) :
    handleBackfillH3 g db =
      ({ status := "complete", updated := 0, remaining := 0, total_records := some db.length },
       db) := by
  have hlen : (backfillSelect db).length = 0 := by
    rw [backfillSelect_length, h]
    simp
  unfold handleBackfillH3
  rw [if_pos hlen]

theorem handleBackfillH3_step (g : H3Lib) (db : List DbRow)
    (hnd : (db.map DbRow.id).Nodup) (h : 0 < countTargets db) :
    (handleBackfillH3 g db).1.remaining = countTargets db - 1000 ∧
    (handleBackfillH3 g db).1.status
      = (if 0 < countTargets db - 1000 then "in_progress" else "complete") ∧
    (handleBackfillH3 g db).1.updated = min 1000 (countTargets db) ∧
    countTargets (handleBackfillH3 g db).2 = countTargets db - 1000 ∧
    ((handleBackfillH3 g db).2).map DbRow.id = db.map DbRow.id := by
  have hlen : ¬ ((backfillSelect db).length = 0) := by
    rw [backfillSelect_length]
    omega
  have hdb' : (chunks100 (backfillSelect db)).foldl
      (fun d c => applyStmts d (c.map (mkUpdStmt g))) db
      = applyStmts db ((backfillSelect db).map (mkUpdStmt g)) := by
    rw [foldl_applyStmts, chunks100_join]
  have hupd : (chunks100 (backfillSelect db)).foldl (fun u c => u + c.length) 0
      = (backfillSelect db).length := by
    rw [foldl_add_length]
    have hflat : ((chunks100 (backfillSelect db)).map List.length).sum
        = (chunks100 (backfillSelect db)).flatten.length := by
      rw [List.length_flatten]
    rw [hflat, chunks100_join]
    omega
  have hcount := countTargets_applyStmts g db hnd
  have hids := applyStmts_map_id db ((backfillSelect db).map (mkUpdStmt g))
  refine ⟨?_, ?_, ?_, ?_, ?_⟩
  · simp only [handleBackfillH3]
    rw [if_neg hlen]
    simp only [hdb', hcount]
  · simp only [handleBackfillH3]
    rw [if_neg hlen]
    simp only [hdb', hcount]
  · simp only [handleBackfillH3]
    rw [if_neg hlen]
    simp only [hupd, backfillSelect_length]
  · simp only [handleBackfillH3]
    rw [if_neg hlen]
    simp only [hdb', hcount]
  · simp only [handleBackfillH3]
    rw [if_neg hlen]
    simp only [hdb', hids]

theorem backfillIter_count (g : H3Lib) :
    ∀ (k : ℕ) (db : List DbRow), (db.map DbRow.id).Nodup →
      countTargets (backfillIter g k db) = countTargets db - 1000 * k ∧
      (backfillIter g k db).map DbRow.id = db.map DbRow.id := by
  intro k
  induction k with
  | zero =>
    intro db hnd
    simp [backfillIter]
  | succ n ih =>
    intro db hnd
    show countTargets (backfillIter g n (handleBackfillH3 g db).2) = _ ∧
      (backfillIter g n (handleBackfillH3 g db).2).map DbRow.id = _
    by_cases h : 0 < countTargets db
    · obtain ⟨-, -, -, hcount, hids⟩ := handleBackfillH3_step g db hnd h
      have hnd' : (((handleBackfillH3 g db).2).map DbRow.id).Nodup := by
        rw [hids]; exact hnd
      obtain ⟨ihc, ihi⟩ := ih _ hnd'
      constructor
      · rw [ihc, hcount]
        ring_nf
        omega
      · rw [ihi, hids]
    · have h0 : countTargets db = 0 := Nat.eq_zero_of_not_pos h
      rw [handleBackfillH3_of_empty g db h0]
      obtain ⟨ihc, ihi⟩ := ih db hnd
      exact ⟨by rw [ihc]; omega, ihi⟩

/-- C2: over a fixed store with N unindexed coordinate-bearing rows
(unique ids), the backfill reaches `remaining = 0` with status
`complete` on the ⌈N/1000⌉-th invocation; an invocation that selects no
rows reports `complete` with `updated = 0` and `remaining = 0` (and the
total record count) without touching the store; and whenever rows were
selected, the reported status is `in_progress` exactly when the
post-pass recount of unindexed rows is positive. -/
theorem backfill_convergence (g : H3Lib) (db : List DbRow)
    (hnd : (db.map DbRow.id).Nodup) :
    (countTargets db = 0 →
       handleBackfillH3 g db =
         ({ status := "complete", updated := 0, remaining := 0,
            total_records := some db.length }, db)) ∧
    (0 < countTargets db →
       (handleBackfillH3 g (backfillIter g ((countTargets db + 999) / 1000 - 1) db)).1.status
         = "complete" ∧
       (handleBackfillH3 g (backfillIter g ((countTargets db + 999) / 1000 - 1) db)).1.remaining
         = 0) ∧
    (∀ db' : List DbRow, backfillSelect db' ≠ [] →
       ((handleBackfillH3 g db').1.status = "in_progress" ↔
        0 < (handleBackfillH3 g db').1.remaining)) := by
  refine ⟨fun h => handleBackfillH3_of_empty g db h, ?_, ?_⟩
  · intro hpos
    obtain ⟨hic, hii⟩ :=
      backfillIter_count g ((countTargets db + 999) / 1000 - 1) db hnd
    have hnd1 : ((backfillIter g ((countTargets db + 999) / 1000 - 1) db).map DbRow.id).Nodup := by
      rw [hii]; exact hnd
    have hpos1 : 0 < countTargets (backfillIter g ((countTargets db + 999) / 1000 - 1) db) := by
      rw [hic]; omega
    obtain ⟨hrem, hst, -, -, -⟩ := handleBackfillH3_step g _ hnd1 hpos1
    constructor
    · rw [hst]
      have hz : ¬ (0 < countTargets (backfillIter g ((countTargets db + 999) / 1000 - 1) db)
          - 1000) := by
        rw [hic]; omega
      rw [if_neg hz]
    · rw [hrem, hic]; omega
  · intro db' hne
    have hlen : ¬ ((backfillSelect db').length = 0) :=
      fun h0 => hne (List.length_eq_zero.mp h0)
    simp only [handleBackfillH3]
    rw [if_neg hlen]
    by_cases hc : 0 < countTargets ((chunks100 (backfillSelect db')).foldl
        (fun d c => applyStmts d (c.map (mkUpdStmt g))) db')
    · simp [hc]
    · rw [if_neg hc]
      dsimp only
      constructor
      · intro h
        exact absurd h (by decide)
      · intro h
        exact absurd h hc

/-- Concrete instantiation of `backfill_convergence`: a two-row store
converges in one call. -/
theorem backfill_convergence_witness :
    (wdb.map DbRow.id).Nodup ∧
    ((handleBackfillH3 h3Fix
        (backfillIter h3Fix ((countTargets wdb + 999) / 1000 - 1) wdb)).1.status = "complete" ∧
     (handleBackfillH3 h3Fix
        (backfillIter h3Fix ((countTargets wdb + 999) / 1000 - 1) wdb)).1.remaining = 0) :=
  ⟨by decide, (backfill_convergence h3Fix wdb (by decide)).2.1 (by decide)⟩

/-! ## Batch import accounting -/

theorem handleBatchImport_some_eq (g : H3Lib) (writeOk : List LocationInsert → Bool)
    (locs : List RawLoc) :
    handleBatchImport g writeOk (some locs) = Except.ok
      { imported := (((chunks100 locs).filter
          (fun c => writeOk (c.map (mkBatchStmt g)))).map List.length).sum
        errors := (((chunks100 locs).filter
          (fun c => !writeOk (c.map (mkBatchStmt g)))).map List.length).sum
        total := locs.length } := by
  simp only [handleBatchImport]
  rw [foldl_pages_split (fun c => writeOk (c.map (mkBatchStmt g))) (chunks100 locs) 0 0]
  simp

set_option maxRecDepth 8000 in
/-- C3: the batch import splits its input into consecutive pages of 100
records (a shorter final page allowed), each page contributes its whole
size to `imported` or to `errors` according to the page's atomic write
verdict, the counters satisfy `imported + errors = total = n` for every
input length and write behaviour, 250 records produce pages of sizes
100/100/50, and only a malformed top-level body is rejected. -/
theorem batch_import_accounting (g : H3Lib) (writeOk : List LocationInsert → Bool)
    (locs : List RawLoc) :
    (∃ resp, handleBatchImport g writeOk (some locs) = Except.ok resp ∧
       resp.imported + resp.errors = resp.total ∧ resp.total = locs.length ∧
       resp.imported = (((chunks100 locs).filter
         (fun c => writeOk (c.map (mkBatchStmt g)))).map List.length).sum ∧
       resp.errors = (((chunks100 locs).filter
         (fun c => !writeOk (c.map (mkBatchStmt g)))).map List.length).sum) ∧
    (chunks100 locs).flatten = locs ∧
    (∀ c ∈ chunks100 locs, 0 < c.length ∧ c.length ≤ 100) ∧
    (∀ c ∈ (chunks100 locs).dropLast, c.length = 100) ∧
    (chunks100 (List.replicate 250 emptyRawLoc)).map List.length = [100, 100, 50] ∧
    handleBatchImport g writeOk none = Except.error "Expected \x7b locations: [...] \x7d" := by
  refine ⟨?_, chunks100_join locs, chunks100_mem_length locs, chunks100_dropLast_length locs,
    by decide, rfl⟩
  refine ⟨_, handleBatchImport_some_eq g writeOk locs, ?_, rfl, rfl, rfl⟩
  show (((chunks100 locs).filter (fun c => writeOk (c.map (mkBatchStmt g)))).map List.length).sum
      + (((chunks100 locs).filter (fun c => !writeOk (c.map (mkBatchStmt g)))).map List.length).sum
      = locs.length
  rw [filter_length_sum_split]
  rw [← List.length_flatten, chunks100_join]

set_option maxRecDepth 8000 in
/-- Concrete instantiation of `batch_import_accounting`: the first page
of a 250-record import is a full page of 100. -/
theorem batch_import_accounting_witness :
    0 < (List.replicate 100 emptyRawLoc).length ∧
    (List.replicate 100 emptyRawLoc).length ≤ 100 :=
  (batch_import_accounting h3Fix (fun _ => true) (List.replicate 250 emptyRawLoc)).2.2.1
    (List.replicate 100 emptyRawLoc) (by decide)

/-! ## Radius query policy -/

/-- C4: the radius query selects resolution 7 (column `h3_res7`) exactly
when `radiusKm ≥ 2` and resolution 9 otherwise, with ring count
`k = ceil(radiusKm / averageEdge)` (edge 1.406 km at resolution 7,
0.201 km at resolution 9) clamped to at most 10 rings; in particular
radius 2 selects resolution 7 and radius 1.999 selects resolution 9. -/
theorem radius_resolution_policy (g : H3Lib) (lat lon : ℚ) (r : ℚ) :
    (2 ≤ r → buildNearbyParams g lat lon (some r) =
       { column := "h3_res7"
         cells := g.gridDisk (g.latLngToCell lat lon 7) (some (min ⌈r / (1.406 : ℚ)⌉ 10)) }) ∧
    (r < 2 → buildNearbyParams g lat lon (some r) =
       { column := "h3_res9"
         cells := g.gridDisk (g.latLngToCell lat lon 9) (some (min ⌈r / (0.201 : ℚ)⌉ 10)) }) ∧
    (buildNearbyParams g lat lon (some 2)).column = "h3_res7" ∧
    (buildNearbyParams g lat lon (some (1.999 : ℚ))).column = "h3_res9" := by
  refine ⟨?_, ?_, ?_, ?_⟩
  · intro h
    simp [buildNearbyParams, jsGE, jsCeilDiv, jsMinI, h]
  · intro h
    simp [buildNearbyParams, jsGE, jsCeilDiv, jsMinI, not_le.mpr h]
  · have h2 : jsGE (some (2 : ℚ)) 2 = true := by
      simp [jsGE]
    simp [buildNearbyParams, h2]
  · have h199 : jsGE (some (1.999 : ℚ)) 2 = false := by
      simp only [jsGE, decide_eq_false_iff_not]
      norm_num
    simp [buildNearbyParams, h199]

/-- Concrete instantiation of `radius_resolution_policy` at the
boundary radius 2. -/
theorem radius_resolution_policy_witness :
    (2 : ℚ) ≤ 2 ∧ buildNearbyParams h3Fix 35 139 (some 2) =
      { column := "h3_res7"
        cells := h3Fix.gridDisk (h3Fix.latLngToCell 35 139 7) (some (min ⌈(2 : ℚ) / 1.406⌉ 10)) } :=
  ⟨by norm_num, (radius_resolution_policy h3Fix 35 139 2).1 (by norm_num)⟩

/-! ## Timestamp normalization lemmas -/

theorem tsGlobMatch_iff (s : String) :
    tsGlobMatch s = true ↔
      ∃ (p : List Char) (sg d1 d2 d3 d4 : Char),
        s.data = p ++ [sg, d1, d2, d3, d4] ∧ isOffSign sg = true ∧
        isDigitCh d1 = true ∧ isDigitCh d2 = true ∧ isDigitCh d3 = true ∧
        isDigitCh d4 = true := by
  constructor
  · intro h
    unfold tsGlobMatch at h
    rcases hrev : s.data.reverse with _ | ⟨d4, _ | ⟨d3, _ | ⟨d2, _ | ⟨d1, _ | ⟨sg, rest⟩⟩⟩⟩⟩ <;>
      rw [hrev] at h <;>
      simp only [globTail, Bool.and_eq_true, Bool.false_eq_true] at h
    obtain ⟨⟨⟨⟨h4, h3⟩, h2⟩, h1⟩, hsg⟩ := h
    have hs : s.data = rest.reverse ++ [sg, d1, d2, d3, d4] := by
      have hrr := congrArg List.reverse hrev
      rw [List.reverse_reverse] at hrr
      rw [hrr]
      simp
    exact ⟨rest.reverse, sg, d1, d2, d3, d4, hs, hsg, h1, h2, h3, h4⟩
  · rintro ⟨p, sg, d1, d2, d3, d4, hs, hsg, h1, h2, h3, h4⟩
    unfold tsGlobMatch
    rw [hs]
    simp [globTail, hsg, h1, h2, h3, h4]

theorem tsNorm_offset_rewrite (p : List Char) (sg d1 d2 d3 d4 : Char)
    (hsg : isOffSign sg = true) (h1 : isDigitCh d1 = true) (h2 : isDigitCh d2 = true)
    (h3 : isDigitCh d3 = true) (h4 : isDigitCh d4 = true) :
    tsNorm (String.mk (p ++ [sg, d1, d2, d3, d4]))
      = String.mk (p ++ [sg, d1, d2, ':', d3, d4]) := by
  have hm : tsGlobMatch (String.mk (p ++ [sg, d1, d2, d3, d4])) = true :=
    (tsGlobMatch_iff _).mpr ⟨p, sg, d1, d2, d3, d4, rfl, hsg, h1, h2, h3, h4⟩
  unfold tsNorm
  rw [hm]
  simp only [if_true]
  have hlen : (p ++ [sg, d1, d2, d3, d4]).length - 2 = p.length + 3 := by
    simp
  rw [hlen]
  have htake : (p ++ [sg, d1, d2, d3, d4]).take (p.length + 3) = p ++ [sg, d1, d2] := by
    rw [List.take_append_eq_append_take, List.take_of_length_le (by omega)]
    congr 1
    have h3' : p.length + 3 - p.length = 3 := by omega
    rw [h3']
    rfl
  have hdrop : (p ++ [sg, d1, d2, d3, d4]).drop (p.length + 3) = [d3, d4] := by
    rw [List.drop_append_eq_append_drop, List.drop_eq_nil_of_le (by omega)]
    have h3' : p.length + 3 - p.length = 3 := by omega
    rw [h3']
    rfl
  rw [htake, hdrop]
  congr 1
  simp

theorem tsNorm_of_no_match (s : String) (h : tsGlobMatch s = false) : tsNorm s = s := by
  unfold tsNorm
  rw [h]
  simp

theorem tsNorm_idem (s : String) : tsNorm (tsNorm s) = tsNorm s := by
  by_cases h : tsGlobMatch s = true
  · obtain ⟨p, sg, d1, d2, d3, d4, hs, hsg, h1, h2, h3, h4⟩ := (tsGlobMatch_iff s).mp h
    have hstring : s = String.mk (p ++ [sg, d1, d2, d3, d4]) := by
      cases s with
      | mk data => exact congrArg String.mk hs
    rw [hstring, tsNorm_offset_rewrite p sg d1 d2 d3 d4 hsg h1 h2 h3 h4]
    apply tsNorm_of_no_match
    unfold tsGlobMatch
    have hrev : (String.mk (p ++ [sg, d1, d2, ':', d3, d4])).data.reverse
        = d4 :: d3 :: ':' :: d2 :: d1 :: sg :: p.reverse := by
      simp
    rw [hrev]
    have hcolon : isDigitCh ':' = false := by decide
    simp [globTail, hcolon]
  · rw [tsNorm_of_no_match s (by simpa using h), tsNorm_of_no_match s (by simpa using h)]

/-- C5: `TS_NORM` inserts a colon before the final two digits exactly
when the string ends in a five-character sign-prefixed four-digit offset
(the GLOB test is equivalent to that suffix shape) and passes every
other string through unchanged; and the read path applies the rewrite to
the stored timestamp both in the range-filter comparisons and in the
ORDER BY key, so a pre-normalized timestamp filters and sorts
identically to its compact form. -/
theorem timestamp_normalization (s : String) (env : SqlEnv) (q : LocQuery) (r : LocRow) :
    (tsGlobMatch s = true ↔
      ∃ (p : List Char) (sg d1 d2 d3 d4 : Char),
        s.data = p ++ [sg, d1, d2, d3, d4] ∧ isOffSign sg = true ∧
        isDigitCh d1 = true ∧ isDigitCh d2 = true ∧ isDigitCh d3 = true ∧
        isDigitCh d4 = true) ∧
    (∀ (p : List Char) (sg d1 d2 d3 d4 : Char),
        isOffSign sg = true → isDigitCh d1 = true → isDigitCh d2 = true →
        isDigitCh d3 = true → isDigitCh d4 = true →
        tsNorm (String.mk (p ++ [sg, d1, d2, d3, d4]))
          = String.mk (p ++ [sg, d1, d2, ':', d3, d4])) ∧
    (tsGlobMatch s = false → tsNorm s = s) ∧
    (rowTimePass env q { timestamp := tsNorm r.timestamp } = rowTimePass env q r ∧
     orderKey env { timestamp := tsNorm r.timestamp } = orderKey env r) := by
  refine ⟨tsGlobMatch_iff s,
    fun p sg d1 d2 d3 d4 hsg h1 h2 h3 h4 =>
      tsNorm_offset_rewrite p sg d1 d2 d3 d4 hsg h1 h2 h3 h4,
    tsNorm_of_no_match s, ?_, ?_⟩
  · have hk : tsKey env (tsNorm r.timestamp) = tsKey env r.timestamp := by
      unfold tsKey
      rw [tsNorm_idem]
    unfold rowTimePass
    dsimp only
    rw [hk]
  · have hk : tsKey env (tsNorm r.timestamp) = tsKey env r.timestamp := by
      unfold tsKey
      rw [tsNorm_idem]
    unfold orderKey
    dsimp only
    exact hk

/-- Concrete instantiation of `timestamp_normalization`:
`2024-01-01T12:00:00+0900` is rewritten to `2024-01-01T12:00:00+09:00`. -/
theorem timestamp_normalization_witness :
    isOffSign '+' = true ∧
    tsNorm (String.mk ("2024-01-01T12:00:00".data ++ ['+', '0', '9', '0', '0']))
      = String.mk ("2024-01-01T12:00:00".data ++ ['+', '0', '9', ':', '0', '0']) :=
  ⟨by decide,
   (timestamp_normalization "" sqlEnvFix emptyQuery { timestamp := "" }).2.1
     "2024-01-01T12:00:00".data '+' '0' '9' '0' '0'
     (by decide) (by decide) (by decide) (by decide) (by decide)⟩

/-! ## Query parameter clamping -/

theorem jsMinMaxI_bounds (a : Option ℤ) (lo hi d : ℤ) (hlohi : lo ≤ hi)
    (h : jsMinI (jsMaxI a lo) hi = some d) : lo ≤ d ∧ d ≤ hi := by
  cases a with
  | none => simp [jsMaxI, jsMinI] at h
  | some x =>
    simp only [jsMaxI, jsMinI, Option.some.injEq] at h
    subst h
    constructor
    · exact le_min (le_max_right x lo) hlohi
    · exact min_le_right _ _

theorem jsMinMaxQ_bounds (a : Option ℚ) (lo hi d : ℚ) (hlohi : lo ≤ hi)
    (h : jsMinQ (jsMaxQ a lo) hi = some d) : lo ≤ d ∧ d ≤ hi := by
  cases a with
  | none => simp [jsMaxQ, jsMinQ] at h
  | some x =>
    simp only [jsMaxQ, jsMinQ, Option.some.injEq] at h
    subst h
    constructor
    · exact le_min (le_max_right x lo) hlohi
    · exact min_le_right _ _

/-- C6 (amended): when a query parameter is absent the default applies
(`days` 7, `limit` 1000, `radius` 1) and whenever the effective value is
a number it lies in the specified range (`days` [1,365], `limit`
[1,10000], `radius` [0.1,50]); but a parameter that is supplied and does
not parse as a number makes the effective value NaN, with no range
guarantee (the clamp chain propagates NaN). -/
theorem query_param_ranges (ps : GetParams) :
    (∀ d, effDays ps = some d → 1 ≤ d ∧ d ≤ 365) ∧
    (ps.days = none → effDays ps = some 7) ∧
    (effDays ps = none → jsParseInt (ps.days.getD "7") = none) ∧
    (∀ n, effLimit ps = some n → 1 ≤ n ∧ n ≤ 10000) ∧
    (ps.limit = none → effLimit ps = some 1000) ∧
    (effLimit ps = none → jsParseInt (ps.limit.getD "1000") = none) ∧
    (∀ x, effRadius ps.radius = some x → (0.1 : ℚ) ≤ x ∧ x ≤ 50) ∧
    (ps.radius = none → effRadius ps.radius = some 1) ∧
    (effRadius ps.radius = none → jsParseFloat (ps.radius.getD "1") = none) := by
  refine ⟨?_, ?_, ?_, ?_, ?_, ?_, ?_, ?_, ?_⟩
  · intro d h
    exact jsMinMaxI_bounds _ 1 365 d (by norm_num) h
  · intro h
    rw [effDays, h]
    decide
  · intro h
    cases hp : jsParseInt (ps.days.getD "7") with
    | none => rfl
    | some n => rw [effDays, hp] at h; simp [jsMaxI, jsMinI] at h
  · intro n h
    exact jsMinMaxI_bounds _ 1 10000 n (by norm_num) h
  · intro h
    rw [effLimit, h]
    decide
  · intro h
    cases hp : jsParseInt (ps.limit.getD "1000") with
    | none => rfl
    | some n => rw [effLimit, hp] at h; simp [jsMaxI, jsMinI] at h
  · intro x h
    exact jsMinMaxQ_bounds _ 0.1 50 x (by norm_num) h
  · intro h
    rw [effRadius, h]
    have h1 : jsParseFloat ((none : Option String).getD "1") = some 1 := by
      show jsParseFloat "1" = some 1
      simp +decide [jsParseFloat, digitsVal, digitVal]
    rw [h1]
    simp [jsMaxQ, jsMinQ]
    norm_num
  · intro h
    cases hp : jsParseFloat (ps.radius.getD "1") with
    | none => rfl
    | some x => rw [effRadius, hp] at h; simp [jsMaxQ, jsMinQ] at h

/-- C6 counterexample: `days=x` is supplied but not a valid number; the
effective value is NaN, not a number in [1, 365]. -/
theorem query_param_ranges_cx :
    ¬ ∃ d : ℤ, effDays psBadDays = some d ∧ 1 ≤ d ∧ d ≤ 365 := by
  rintro ⟨d, hd, -, -⟩
  have hnone : effDays psBadDays = none := by decide
  rw [hnone] at hd
  exact Option.noConfusion hd

/-- Concrete instantiation of `query_param_ranges`: absent parameters
default to days 7. -/
theorem query_param_ranges_witness :
    psNoParams.days = none ∧ effDays psNoParams = some 7 :=
  ⟨rfl, (query_param_ranges psNoParams).2.1 rfl⟩

/-! ## Spatial reads and the default time window -/

/-- C10: a GET /locations request that supplies valid `near_lat` and
`near_lon` but no `after` parameter produces a query with no lower time
bound at all; more generally, whenever the built query carries a spatial
filter its lower time bound is never the default days window, so
spatially filtered reads are not limited to the last `days` days. -/
theorem spatial_read_no_time_floor (g : H3Lib) :
    (∀ (ps : GetParams) (slat slon : String) (lat lon : ℚ),
       ps.after = none → ps.near_lat = some slat → ps.near_lon = some slon →
       jsParseFloat slat = some lat → jsParseFloat slon = some lon →
       ∃ q m, handleGetLocations g ps = Except.ok (q, some m) ∧
         q.timeLower = none ∧ q.spatial ≠ none) ∧
    (∀ (ps : GetParams) (q : LocQuery) (m : Option SpatialMeta),
       handleGetLocations g ps = Except.ok (q, m) → q.spatial ≠ none →
       ∀ dd, q.timeLower ≠ some (.nowMinusDays dd)) := by
  constructor
  · intro ps slat slon lat lon hafter hnlat hnlon hplat hplon
    simp only [handleGetLocations, hnlat, hnlon, hplat, hplon]
    refine ⟨_, _, rfl, ?_, ?_⟩
    · simp [mkTimeLower, hafter]
    · simp
  · intro ps q m h hsp dd
    simp only [handleGetLocations] at h
    rcases hn1 : ps.near_lat with _ | slat
    · rw [hn1] at h
      simp only [Except.ok.injEq, Prod.mk.injEq] at h
      obtain ⟨hq, -⟩ := h
      rw [← hq] at hsp
      simp at hsp
    · rcases hn2 : ps.near_lon with _ | slon
      · rw [hn1, hn2] at h
        simp only [Except.ok.injEq, Prod.mk.injEq] at h
        obtain ⟨hq, -⟩ := h
        rw [← hq] at hsp
        simp at hsp
      · rw [hn1, hn2] at h
        dsimp only at h
        rcases hp1 : jsParseFloat slat with _ | lat
        · rw [hp1] at h
          simp at h
        · rw [hp1] at h
          rcases hp2 : jsParseFloat slon with _ | lon
          · rw [hp2] at h
            simp at h
          · rw [hp2] at h
            simp only [Except.ok.injEq, Prod.mk.injEq] at h
            obtain ⟨hq, -⟩ := h
            rw [← hq]
            dsimp only
            rcases haf : ps.after with _ | a
            · simp [mkTimeLower]
            · simp only [mkTimeLower]
              by_cases he : a = "" <;> simp [he]

/-- Concrete instantiation of `spatial_read_no_time_floor`: a request
with `near_lat=35`, `near_lon=139` and no `after` gets a query with no
lower time bound. -/
theorem spatial_read_no_time_floor_witness :
    ∃ q m, handleGetLocations h3Fix
        { days := none, limit := none, source := none, after := none, before := none,
          near_lat := some "35", near_lon := some "139", radius := none }
      = Except.ok (q, some m) ∧ q.timeLower = none ∧ q.spatial ≠ none :=
  (spatial_read_no_time_floor h3Fix).1
    { days := none, limit := none, source := none, after := none, before := none,
      near_lat := some "35", near_lon := some "139", radius := none }
    "35" "139" 35 139 rfl rfl rfl
    (by simp +decide [jsParseFloat, digitsVal, digitVal])
    (by simp +decide [jsParseFloat, digitsVal, digitVal])

/-! ## POST /locations dispatch -/

/-- C1 (amended): the coordinates-missing client error (no write
attempted) applies exactly to bodies with no truthy type tag and a
missing `lat` or `lon`; a `location`-tagged message is never
coordinate-validated — the handler builds and issues its INSERT (one
attempted write) even when `lat` or `lon` is absent, that statement
binds a missing coordinate, and since the store rejects such a
statement (NOT NULL columns) and the handler has no try/catch, the
rejection propagates uncaught: the call returns neither the client
error nor any other response. -/
theorem post_invalid_payload_rule (env : PostEnv) (insertOk : LocationInsert → Bool)
    (b : PostBody) :
    (truthy b.tag = false → b.lat = none ∨ b.lon = none →
       postOutcome env insertOk b = PostOutcome.ok PostResp.invalidPayload ∧
       (handlePostLocation env b).writes = []) ∧
    (b.tag = some (.jstr "location") → (handlePostLocation env b).writes.length = 1) ∧
    (b.tag = some (.jstr "location") → b.lat = none ∨ b.lon = none →
       (∀ rec ∈ (handlePostLocation env b).writes, rec.latV = none ∨ rec.lonV = none) ∧
       ((∀ rec : LocationInsert, rec.latV = none ∨ rec.lonV = none → insertOk rec = false) →
          postOutcome env insertOk b = PostOutcome.thrown)) := by
  refine ⟨?_, ?_, ?_⟩
  · intro htr hmiss
    have h1 : ¬ b.tag = some (.jstr "location") := by
      intro h
      rw [h] at htr
      simp [truthy] at htr
    have h2 : ¬ (b.tag = some (.jstr "waypoint") ∧ b.lat.isSome ∧ b.lon.isSome) := by
      rintro ⟨h, -, -⟩
      rw [h] at htr
      simp [truthy] at htr
    have h3 : ¬ (b.tag = some (.jstr "transition") ∧ b.lat.isSome ∧ b.lon.isSome) := by
      rintro ⟨h, -, -⟩
      rw [h] at htr
      simp [truthy] at htr
    have h5 : ¬ (b.lat.isSome ∧ b.lon.isSome) := by
      rintro ⟨ha, hb⟩
      rcases hmiss with h | h
      · rw [h] at ha
        simp at ha
      · rw [h] at hb
        simp at hb
    have hout : handlePostLocation env b
        = { response := PostResp.invalidPayload, writes := [] } := by
      simp [handlePostLocation, h1, h2, h3, htr, h5]
    constructor
    · simp [postOutcome, hout]
    · rw [hout]
  · intro htag
    simp [handlePostLocation, htag]
  · intro htag hmiss
    have hw : ∀ rec ∈ (handlePostLocation env b).writes, rec.latV = none ∨ rec.lonV = none := by
      intro rec hrec
      simp [handlePostLocation, htag] at hrec
      subst hrec
      rcases hmiss with h | h
      · exact Or.inl h
      · exact Or.inr h
    refine ⟨hw, ?_⟩
    intro hstore
    have hfail : ∀ rec ∈ (handlePostLocation env b).writes, insertOk rec = false :=
      fun rec hrec => hstore rec (hw rec hrec)
    rcases hws : (handlePostLocation env b).writes with _ | ⟨r0, rest⟩
    · exfalso
      have := hws ▸ (by simp [handlePostLocation, htag] :
        (handlePostLocation env b).writes.length = 1)
      simp at this
    · have hr0 : insertOk r0 = false := hfail r0 (hws ▸ List.mem_cons_self r0 rest)
      simp only [postOutcome]
      rw [hws]
      simp [hr0]

/-- C1 counterexample: `{_type:"location"}` with no coordinates is not
rejected with a client error, and its INSERT is still issued — under a
store verdict enforcing the NOT NULL coordinate columns the call throws
instead of returning any response. -/
theorem post_invalid_payload_rule_cx :
    ¬ (postOutcome postEnvFix d1InsertOk { emptyBody with tag := some (.jstr "location") }
         = PostOutcome.ok PostResp.invalidPayload ∧
       (handlePostLocation postEnvFix { emptyBody with tag := some (.jstr "location") }).writes
         = []) := by
  decide

/-- Concrete instantiation of `post_invalid_payload_rule`: the empty
body is rejected with no write, and `{_type:"location"}` with no
coordinates issues one INSERT whose guaranteed failure propagates. -/
theorem post_invalid_payload_rule_witness :
    (postOutcome postEnvFix d1InsertOk emptyBody
       = PostOutcome.ok PostResp.invalidPayload ∧
     (handlePostLocation postEnvFix emptyBody).writes = []) ∧
    postOutcome postEnvFix d1InsertOk { emptyBody with tag := some (.jstr "location") }
      = PostOutcome.thrown :=
  ⟨(post_invalid_payload_rule postEnvFix d1InsertOk emptyBody).1 (by decide) (Or.inl rfl),
   ((post_invalid_payload_rule postEnvFix d1InsertOk
       { emptyBody with tag := some (.jstr "location") }).2.2 rfl (Or.inl rfl)).2
     (fun rec h => by
       rcases h with h | h
       · simp [d1InsertOk, h]
       · simp [d1InsertOk, h])⟩

/-- C8 (amended): every `handlePostLocation` call issues at most one
INSERT, and a body whose type tag is truthy and not
location/waypoint/transition is acknowledged with the empty list and
never written; but a falsy type-tag value (such as the empty string) is
treated as absent and falls through to the generic-payload branch. -/
theorem opaque_tag_never_persists (env : PostEnv) (b : PostBody) :
    (handlePostLocation env b).writes.length ≤ 1 ∧
    (truthy b.tag = true →
      b.tag ≠ some (.jstr "location") → b.tag ≠ some (.jstr "waypoint") →
      b.tag ≠ some (.jstr "transition") →
      (handlePostLocation env b).writes = [] ∧
      (handlePostLocation env b).response = PostResp.emptyList) := by
  constructor
  · unfold handlePostLocation
    split_ifs <;> simp
  · intro htr h1 h2 h3
    have h2' : ¬ (b.tag = some (.jstr "waypoint") ∧ b.lat.isSome ∧ b.lon.isSome) :=
      fun h => h2 h.1
    have h3' : ¬ (b.tag = some (.jstr "transition") ∧ b.lat.isSome ∧ b.lon.isSome) :=
      fun h => h3 h.1
    simp [handlePostLocation, h1, h2', h3', htr]

/-- C8 counterexample: `{_type:"", lat:35, lon:139}` carries a type tag
that is none of location/waypoint/transition, yet one record is
persisted and the response is not the empty list. -/
theorem opaque_tag_never_persists_cx :
    ¬ ((handlePostLocation postEnvFix
          { emptyBody with tag := some (.jstr ""), lat := some (.jnum 35),
                           lon := some (.jnum 139) }).writes = [] ∧
       (handlePostLocation postEnvFix
          { emptyBody with tag := some (.jstr ""), lat := some (.jnum 35),
                           lon := some (.jnum 139) }).response = PostResp.emptyList) := by
  decide

/-- Concrete instantiation of `opaque_tag_never_persists`:
`{_type:"status"}` persists nothing and returns the empty list. -/
theorem opaque_tag_never_persists_witness :
    truthy (some (JSVal.jstr "status")) = true ∧
    (handlePostLocation postEnvFix { emptyBody with tag := some (.jstr "status") }).writes = [] ∧
    (handlePostLocation postEnvFix { emptyBody with tag := some (.jstr "status") }).response
      = PostResp.emptyList := by
  refine ⟨by decide, ?_⟩
  exact (opaque_tag_never_persists postEnvFix
    { emptyBody with tag := some (.jstr "status") }).2
    (by decide) (by decide) (by decide) (by decide)

/-! ## H3 column pairing -/

theorem computeH3_none_iff (g : H3Lib) (la lo : Option JSVal) :
    ((computeH3 g la lo).1 = none ↔ (computeH3 g la lo).2 = none) := by
  unfold computeH3
  split_ifs with h
  · simp
  · cases toNumber la <;> cases toNumber lo <;> simp

theorem computeH3_pair_eq_none (g : H3Lib) (la lo : Option JSVal) :
    computeH3 g la lo = (none, none) ↔
      ((isNullish la || isNullish lo) = true ∨ toNumber la = none ∨ toNumber lo = none) := by
  unfold computeH3
  split_ifs with h
  · simp [h]
  · cases hla : toNumber la <;> cases hlo : toNumber lo <;> simp [h, Prod.ext_iff]

/-- C7: in every write path — single-message ingestion, bulk import,
and the backfill — the `h3_res7` and `h3_res9` columns are produced by
one `computeH3` call and are either both null or both set; `computeH3`
itself returns the null pair exactly when a coordinate is nullish or
non-numeric. -/
theorem h3_columns_paired (g : H3Lib) (la lo : Option JSVal) (env : PostEnv) (b : PostBody)
    (locs : List RawLoc) (r : DbRow) :
    ((computeH3 g la lo).1 = none ↔ (computeH3 g la lo).2 = none) ∧
    (computeH3 g la lo = (none, none) ↔
      ((isNullish la || isNullish lo) = true ∨ toNumber la = none ∨ toNumber lo = none)) ∧
    (∀ rec ∈ (handlePostLocation env b).writes, (rec.h3_res7 = none ↔ rec.h3_res9 = none)) ∧
    (∀ rec ∈ (batchPages g locs).flatten, (rec.h3_res7 = none ↔ rec.h3_res9 = none)) ∧
    ((mkUpdStmt g r).c7 = none ↔ (mkUpdStmt g r).c9 = none) := by
  refine ⟨computeH3_none_iff g la lo, computeH3_pair_eq_none g la lo, ?_, ?_, ?_⟩
  · intro rec hrec
    unfold handlePostLocation at hrec
    split_ifs at hrec <;> simp at hrec <;> subst hrec <;>
      exact computeH3_none_iff env.g b.lat b.lon
  · intro rec hrec
    rw [List.mem_flatten] at hrec
    obtain ⟨page, hpage, hrecp⟩ := hrec
    unfold batchPages at hpage
    obtain ⟨c, -, rfl⟩ := List.mem_map.mp hpage
    obtain ⟨loc, -, rfl⟩ := List.mem_map.mp hrecp
    exact computeH3_none_iff g loc.lat loc.lon
  · exact computeH3_none_iff g (dbNum r.lat) (dbNum r.lon)

/-- Concrete instantiation of `h3_columns_paired`: the record persisted
for a well-formed tracker ping has both index columns set together. -/
theorem h3_columns_paired_witness :
    { timestampV := some (.jstr "1970-01-01T00:00:00.000Z"), latV := some (.jnum 35),
      lonV := some (.jnum 139), accuracyV := none, sourceV := some (.jstr "owntracks"),
      place_idV := none, semantic_typeV := none, activity_typeV := none, altitudeV := none,
      speedV := none, h3_res7 := some "cell7", h3_res9 := some "cell9" }
        ∈ (handlePostLocation postEnvFix pingBody).writes ∧
    ((some "cell7" : Option String) = none ↔ (some "cell9" : Option String) = none) :=
  ⟨by decide,
   (h3_columns_paired h3Fix none none postEnvFix pingBody []
      { id := 0, lat := none, lon := none, h3_res7 := none, h3_res9 := none }).2.2.1
     { timestampV := some (.jstr "1970-01-01T00:00:00.000Z"), latV := some (.jnum 35),
       lonV := some (.jnum 139), accuracyV := none, sourceV := some (.jstr "owntracks"),
       place_idV := none, semantic_typeV := none, activity_typeV := none, altitudeV := none,
       speedV := none, h3_res7 := some "cell7", h3_res9 := some "cell9" }
     (by decide)⟩
